import Mathlib

/-!
Verification of the v4 signed-URL conformance harness
(`conformance-test/v4SignedUrl.ts`) and of the v4 request-signing engine it
exercises.

The first half of this development is a shallow embedding of the harness
source: the `UrlStyle` enum, the `parseUrlStyle` helper, the fixture
partition loop, the HTTP-verb → action dispatch, and the structural
comparison performed on each produced URL.  The second half models the
signing engine itself (which is not part of this source tree; only the
conformance harness is) from its specification: addressing resolution,
expiration validation, auth-parameter merging, canonical-request
construction and final URL assembly, parametric in the cryptographic
primitives.
-/

namespace V4Conformance

/-- JavaScript string truthiness: a string option is truthy exactly when it
is present and non-empty (`undefined`, missing, and `''` are all falsy). -/
def truthyStr : Option String → Option String
  | some s => if s = "" then none else some s
  | none => none

/-- `truthyStr` as a Bool test. -/
def isTruthyStr (o : Option String) : Bool :=
  (truthyStr o).isSome

/-- The `UrlStyle` enum exported by the harness source. -/
inductive UrlStyle where
  | PATH_STYLE
  | VIRTUAL_HOSTED_STYLE
  | BUCKET_BOUND_HOSTNAME
  deriving DecidableEq, Repr

/-- Result shape of `parseUrlStyle`: an optional `cname` and an optional
`virtualHostedStyle` flag, a field being `none` when the source leaves it
`undefined`. -/
structure ParsedUrlStyle where
  cname : Option String
  virtualHostedStyle : Option Bool
  deriving DecidableEq, Repr

/-- Embedding of the harness's `parseUrlStyle(style?, domain?)`:
`BUCKET_BOUND_HOSTNAME` returns `{cname: domain}` (leaving
`virtualHostedStyle` undefined), `VIRTUAL_HOSTED_STYLE` returns
`{virtualHostedStyle: true}`, and every other style — including an absent
one — returns `{virtualHostedStyle: false}`. -/
def parseUrlStyle (style : Option UrlStyle) (domain : Option String) :
    ParsedUrlStyle :=
  match style with
  | some UrlStyle.BUCKET_BOUND_HOSTNAME =>
      { cname := domain, virtualHostedStyle := none }
  | some UrlStyle.VIRTUAL_HOSTED_STYLE =>
      { cname := none, virtualHostedStyle := some true }
  | _ =>
      { cname := none, virtualHostedStyle := some false }

/-- A URL-signing test case of the fixture, per the harness's
`V4SignedURLTestCase` interface.  Optional fields are `Option`s; header and
query-parameter mappings are association lists. -/
structure V4SignedURLTestCase where
  description : String
  bucket : String
  object : Option String
  urlStyle : Option UrlStyle
  bucketBoundHostname : Option String
  scheme : String
  headers : List (String × String)
  queryParameters : List (String × String)
  method : String
  expiration : Nat
  timestamp : String
  expectedUrl : String
  deriving Repr

/-- Embedding of the harness's `domain` computation:
`testCase.bucketBoundHostname ? scheme://hostname : undefined`, with
JavaScript truthiness on the hostname. -/
def testDomain (tc : V4SignedURLTestCase) : Option String :=
  match truthyStr tc.bucketBoundHostname with
  | some hostname => some (tc.scheme ++ "://" ++ hostname)
  | none => none

/-- The `cname` the harness passes to the engine for a test case: the
`cname` component of `parseUrlStyle(testCase.urlStyle, domain)`. -/
def testCname (tc : V4SignedURLTestCase) : Option String :=
  (parseUrlStyle tc.urlStyle (testDomain tc)).cname

/-- Values of the harness's `FileAction` dispatch table. -/
inductive FileActionValue where
  | read
  | resumable
  | write
  | delete
  deriving DecidableEq, Repr

/-- Values of the harness's `BucketAction` dispatch table. -/
inductive BucketActionValue where
  | list
  deriving DecidableEq, Repr

/-- Embedding of the harness's object-case dispatch
`({GET:'read', POST:'resumable', PUT:'write', DELETE:'delete'})[method]`:
a JavaScript index into an object literal, yielding `undefined` (`none`)
for any other key. -/
def fileAction (method : String) : Option FileActionValue :=
  if method = "GET" then some FileActionValue.read
  else if method = "POST" then some FileActionValue.resumable
  else if method = "PUT" then some FileActionValue.write
  else if method = "DELETE" then some FileActionValue.delete
  else none

/-- Embedding of the harness's bucket-case dispatch `({GET:'list'})[method]`. -/
def bucketAction (method : String) : Option BucketActionValue :=
  if method = "GET" then some BucketActionValue.list
  else none

/-- The action carried by the harness's engine invocation: the harness
always calls `getSignedUrl` on a file when `testCase.object` is truthy and
on a bucket otherwise, passing whatever the dispatch table produced —
possibly `undefined`. -/
inductive DispatchedAction where
  | file (a : Option FileActionValue)
  | bucket (a : Option BucketActionValue)
  deriving DecidableEq, Repr

/-- Embedding of the harness's test body dispatch: `if (testCase.object)`
selects the file table, otherwise the bucket table, and the engine is
invoked unconditionally with the looked-up action (there is no rejection
branch for an unrecognized verb). -/
def testCaseAction (tc : V4SignedURLTestCase) : DispatchedAction :=
  match truthyStr tc.object with
  | some _ => DispatchedAction.file (fileAction tc.method)
  | none => DispatchedAction.bucket (bucketAction tc.method)

/-- The `Conditions` interface of the harness source. -/
structure Conditions where
  contentLengthRange : Int × Int
  startsWith : String × String
  acl : String
  deriving Repr

/-- The `PolicyInput` interface of the harness source. -/
structure PolicyInput where
  scheme : String
  bucket : String
  object : String
  expiration : Nat
  timestamp : String
  conditions : Option Conditions
  fields : List (String × String)
  deriving Repr

/-- A raw fixture entry as parsed from `signingV4Tests`: untyped JSON, of
which the partition loop only inspects `expectedUrl` (string truthiness)
and `policyInput` (object presence). -/
structure RawTestCase where
  description : String
  expectedUrl : Option String
  policyInput : Option PolicyInput
  deriving Repr

/-- Embedding of the harness's partition loop over the fixture:
`if (testCase.expectedUrl) push to v4SignedUrlCases; else if
(testCase.policyInput) push to v4SignedPolicyCases;` — entries matching
neither guard are pushed nowhere. -/
def partitionCases : List RawTestCase → List RawTestCase × List RawTestCase
  | [] => ([], [])
  | tc :: rest =>
    let p := partitionCases rest
    if isTruthyStr tc.expectedUrl then (tc :: p.1, p.2)
    else if tc.policyInput.isSome then (p.1, tc :: p.2)
    else p

/-- The guard placing an entry in `v4SignedUrlCases`. -/
def isUrlCase (tc : RawTestCase) : Bool :=
  isTruthyStr tc.expectedUrl

/-- The guard placing an entry in `v4SignedPolicyCases`. -/
def isPolicyCase (tc : RawTestCase) : Bool :=
  !isTruthyStr tc.expectedUrl && tc.policyInput.isSome

/-! ### The mocha suite structure of the harness

The harness registers two suites: `describe('v4 signed url', ...)`, which
runs, and `describe.skip('v4 signed policy', ...)`, whose body consists
solely of commented-out statements.  We record, for each suite, its skip
flag and the list of assertion descriptions its per-case body executes;
running a suite concatenates the assertions of its cases unless the suite
is skipped. -/

/-- A mocha `describe` block over test cases of type `α`: a skip flag and
the assertions executed by one test body. -/
structure TestSuite (α : Type) where
  skipped : Bool
  body : α → List String

/-- Running a suite: a skipped suite executes nothing; otherwise each
case's body runs in order. -/
def runSuite {α : Type} (s : TestSuite α) (cases : List α) : List String :=
  if s.skipped then [] else cases.flatMap s.body

/-- The policy-case wrapper of the harness source: a `V4SignedPolicyTestCase`
is a description plus policy input and output (`PolicyOutput` collapsed to
its two fields). -/
structure V4SignedPolicyTestCase where
  description : String
  policyInput : PolicyInput
  outputUrl : String
  outputFields : List (String × String)
  deriving Repr

/-- Embedding of `describe.skip('v4 signed policy', ...)`: the suite is
skipped, and the registered test body is empty — every statement in it is
commented out, so it executes no assertion even if invoked. -/
def v4SignedPolicySuite : TestSuite V4SignedPolicyTestCase :=
  { skipped := true, body := fun _ => [] }

/-! ### The structural URL comparison of the harness

After signing, the harness parses both the produced and the expected URL
with `new url.URL(...)` and asserts, in order: `origin` equality,
`pathname` equality, and `deepStrictEqual` of
`querystring.parse(actual.search)` against
`querystring.parse(expected.search)`.  A `URL`'s `search` accessor yields
the serialized query *including its leading `?`* (or `""` when there is no
query); `querystring.parse` does not strip a leading `?`. -/

/-- The components of a parsed WHATWG `URL` that the harness reads:
`origin`, `pathname`, and `search` (the serialized query, which carries a
leading `?` whenever the query is non-empty). -/
structure URLRecord where
  origin : String
  pathname : String
  search : String
  deriving DecidableEq, Repr

/-- Value of a hexadecimal digit character, if any. -/
def hexDigitVal (c : Char) : Option Nat :=
  if '0' ≤ c ∧ c ≤ '9' then some (c.toNat - '0'.toNat)
  else if 'a' ≤ c ∧ c ≤ 'f' then some (c.toNat - 'a'.toNat + 10)
  else if 'A' ≤ c ∧ c ≤ 'F' then some (c.toNat - 'A'.toNat + 10)
  else none

/-- Model of `querystring.unescape` on a character list: `+` becomes a
space and `%XY` (two hex digits) decodes to the character of that byte
value; a malformed `%` sequence is left as-is.  (Byte-accurate for the
ASCII data the fixture uses; multi-byte UTF-8 sequences would decode
byte-by-byte here.) -/
def unescapeChars : List Char → List Char
  | [] => []
  | '%' :: h1 :: h2 :: rest =>
    match hexDigitVal h1, hexDigitVal h2 with
    | some a, some b => Char.ofNat (16 * a + b) :: unescapeChars rest
    | _, _ => '%' :: unescapeChars (h1 :: h2 :: rest)
  | '+' :: rest => ' ' :: unescapeChars rest
  | c :: rest => c :: unescapeChars rest

/-- Split a character list at every occurrence of `sep`; `acc` holds the
current segment reversed. -/
def splitCharAux (sep : Char) : List Char → List Char → List (List Char)
  | [], acc => [acc.reverse]
  | c :: rest, acc =>
    if c = sep then acc.reverse :: splitCharAux sep rest []
    else splitCharAux sep rest (c :: acc)

/-- Split a query segment at its first `=`: key before, value after (an
absent `=` leaves the value empty). -/
def splitKV : List Char → List Char × List Char
  | [] => ([], [])
  | c :: rest =>
    if c = '=' then ([], rest)
    else
      let (k, v) := splitKV rest
      (c :: k, v)

/-- Record one decoded `key=value` occurrence in the accumulated mapping:
a repeated key collects its values in occurrence order (Node represents a
repeated key's values as an array). -/
def addEntry : List (String × List String) → String → String →
    List (String × List String)
  | [], k, v => [(k, [v])]
  | (k0, vs) :: rest, k, v =>
    if k0 = k then (k0, vs ++ [v]) :: rest
    else (k0, vs) :: addEntry rest k v

/-- Model of Node's `querystring.parse`: split on `&` (empty segments are
dropped), split each segment at its first `=`, unescape key and value, and
group values by key in first-occurrence order.  The leading `?` of a
`URL#search` string is *not* stripped — it stays glued to the first key,
exactly as in Node. -/
def qsParse (s : String) : List (String × List String) :=
  let segments := (splitCharAux '&' s.toList []).filter (fun seg => seg ≠ [])
  segments.foldl
    (fun acc seg =>
      let (k, v) := splitKV seg
      addEntry acc (String.mk (unescapeChars k)) (String.mk (unescapeChars v)))
    []

/-- Model of `assert.deepStrictEqual` on two parsed-query objects: equality
of own enumerable properties, insensitive to property insertion order. -/
def qsObjEq (o1 o2 : List (String × List String)) : Bool :=
  o1.all (fun p => o2.lookup p.1 == some p.2) &&
    o2.all (fun p => o1.lookup p.1 == some p.2)

/-- Embedding of the harness's conformance judgement on one test case:
`actual.origin === expected.origin`, `actual.pathname === expected.pathname`,
and `deepStrictEqual(querystring.parse(actual.search),
querystring.parse(expected.search))` — note that both `search` strings keep
their leading `?`. -/
def urlConformance (actual expected : URLRecord) : Bool :=
  actual.origin == expected.origin &&
    actual.pathname == expected.pathname &&
    qsObjEq (qsParse actual.search) (qsParse expected.search)

/-- Strip the leading `?` of a `URL#search` serialization, yielding the
query string proper. -/
def stripQuestion (s : String) : String :=
  match s.toList with
  | '?' :: rest => String.mk rest
  | _ => s

/-- The judgement the specification describes: origin and pathname equal,
and the *query strings* of both URLs (without the `?` marker), parsed as
mappings, exactly equal order-insensitively. -/
def specUrlConformance (actual expected : URLRecord) : Bool :=
  actual.origin == expected.origin &&
    actual.pathname == expected.pathname &&
    qsObjEq (qsParse (stripQuestion actual.search))
      (qsParse (stripQuestion expected.search))

/-! ### The v4 signing engine

The engine the harness exercises (`getSignedUrl` of the storage library)
is not part of this source tree — only its conformance harness is.  The
definitions below therefore model it from the specification: canonical
encoding, credential-scope derivation, addressing resolution, auth-param
merging, canonical-request assembly and URL assembly, parametric in the
cryptographic primitives (HMAC-SHA256 and SHA-256 as hex-producing
functions) so that every stated property holds for *any* implementation
of those primitives. -/

/-- Modelled from the spec: the engine's error taxonomy (§7) — the signed
URL and policy engine, absent from this tree, raises these synchronously
at the point of violation. -/
inductive SigningError where
  | invalidCredential
  | invalidAddressing
  | expirationRange
  | invalidCondition
  | queryParamCollision
  deriving DecidableEq, Repr

/-- Modelled from the spec: the service-account identity and key material
(`SigningCredential`, §3) consumed by the missing engine. -/
structure SigningCredential where
  clientEmail : String
  privateKey : String

/-- Modelled from the spec: the cryptographic primitives (§4.2, §4.4) the
missing engine uses — HMAC-SHA256 (key, message → lowercase hex) and
SHA-256 (message → lowercase hex) — abstracted as parameters so the
control-flow properties below hold for every implementation. -/
structure CryptoPrimitives where
  hmacHex : String → String → String
  sha256Hex : String → String

/-- Modelled from the spec: the reference timestamp of a signing request
(§3, §4.2), as a broken-down UTC time. -/
structure UTCTimestamp where
  year : Nat
  month : Nat
  day : Nat
  hour : Nat
  minute : Nat
  second : Nat
  deriving DecidableEq, Repr

/-- Two-digit zero-padded decimal rendering. -/
def pad2 (n : Nat) : String :=
  if n < 10 then "0" ++ toString n else toString n

/-- Four-digit zero-padded decimal rendering. -/
def pad4 (n : Nat) : String :=
  if n < 10 then "000" ++ toString n
  else if n < 100 then "00" ++ toString n
  else if n < 1000 then "0" ++ toString n
  else toString n

/-- Modelled from the spec: the `YYYYMMDD` date portion of the credential
scope (§4.2). -/
def dateStamp (ts : UTCTimestamp) : String :=
  pad4 ts.year ++ pad2 ts.month ++ pad2 ts.day

/-- Modelled from the spec: the full `YYYYMMDDTHHMMSSZ` request timestamp
(§4.2). -/
def fullStamp (ts : UTCTimestamp) : String :=
  dateStamp ts ++ "T" ++ pad2 ts.hour ++ pad2 ts.minute ++ pad2 ts.second ++ "Z"

/-- The storage endpoint host the missing engine addresses. -/
def STORAGE_ENDPOINT : String := "storage.googleapis.com"

/-- The scope's location constant. -/
def SCOPE_LOCATION : String := "auto"

/-- The scope's service-name constant. -/
def SCOPE_SERVICE : String := "storage"

/-- Modelled from the spec: the dated credential scope
`date/location/service/goog4_request` (§4.2). -/
def buildScope (ts : UTCTimestamp) : String :=
  dateStamp ts ++ "/" ++ SCOPE_LOCATION ++ "/" ++ SCOPE_SERVICE ++ "/goog4_request"

/-- Modelled from the spec: the iterated HMAC signing-key chain (§4.2):
`key0 = "GOOG4" + privateKey`, then successive HMACs over date, location,
service and the terminator constant. -/
def deriveSigningKey (cp : CryptoPrimitives) (cred : SigningCredential)
    (ts : UTCTimestamp) : String :=
  let key0 := "GOOG4" ++ cred.privateKey
  let key1 := cp.hmacHex key0 (dateStamp ts)
  let key2 := cp.hmacHex key1 SCOPE_LOCATION
  let key3 := cp.hmacHex key2 SCOPE_SERVICE
  cp.hmacHex key3 "goog4_request"

/-- RFC 3986 unreserved characters. -/
def isUnreserved (c : Char) : Bool :=
  c.isAlphanum || c = '-' || c = '_' || c = '.' || c = '~'

/-- Uppercase hexadecimal digit of a value below 16. -/
def hexDigitUpper (n : Nat) : Char :=
  if n < 10 then Char.ofNat ('0'.toNat + n) else Char.ofNat ('A'.toNat + n - 10)

/-- `%XY` percent-encoding of one byte, uppercase hex. -/
def percentByte (b : Nat) : List Char :=
  ['%', hexDigitUpper (b / 16), hexDigitUpper (b % 16)]

/-- UTF-8 byte sequence of a character. -/
def utf8Bytes (c : Char) : List Nat :=
  let n := c.toNat
  if n < 128 then [n]
  else if n < 2048 then [192 + n / 64, 128 + n % 64]
  else if n < 65536 then [224 + n / 4096, 128 + (n / 64) % 64, 128 + n % 64]
  else [240 + n / 262144, 128 + (n / 4096) % 64, 128 + (n / 64) % 64,
    128 + n % 64]

/-- Modelled from the spec: `encodeQueryComponent` (§4.1) — unreserved
characters pass through, everything else is percent-encoded bytewise with
uppercase hex. -/
def encodeQueryComponent (s : String) : String :=
  String.mk (s.toList.flatMap fun c =>
    if isUnreserved c then [c] else (utf8Bytes c).flatMap percentByte)

/-- Modelled from the spec: `encodePath` (§4.1) — like the query encoder
but `/` also passes through, so an object path is encoded per segment. -/
def encodePath (s : String) : String :=
  String.mk (s.toList.flatMap fun c =>
    if isUnreserved c || c = '/' then [c] else (utf8Bytes c).flatMap percentByte)

/-- Lexicographic order on character lists by code point. -/
def charListLe : List Char → List Char → Bool
  | [], _ => true
  | _ :: _, [] => false
  | a :: as, b :: bs =>
    if a.toNat < b.toNat then true
    else if b.toNat < a.toNat then false
    else charListLe as bs

/-- Lexicographic order on strings by code point. -/
def strLe (a b : String) : Bool :=
  charListLe a.toList b.toList

/-- Insert into a list sorted by `le`. -/
def insertLe {α : Type} (le : α → α → Bool) (x : α) : List α → List α
  | [] => [x]
  | y :: ys => if le x y then x :: y :: ys else y :: insertLe le x ys

/-- Insertion sort by `le`. -/
def sortLe {α : Type} (le : α → α → Bool) (l : List α) : List α :=
  l.foldr (insertLe le) []

/-- Order on encoded query pairs: by key, ties broken by value (§4.1). -/
def pairLe (p q : String × String) : Bool :=
  if p.1 = q.1 then strLe p.2 q.2 else strLe p.1 q.1

/-- Whitespace characters collapsed by header canonicalization. -/
def isWs (c : Char) : Bool :=
  c = ' ' || c = '\t' || c = '\n' || c = '\r'

/-- Split a character list at every whitespace character; `acc` holds the
current run reversed. -/
def wsSegments : List Char → List Char → List (List Char)
  | [], acc => [acc.reverse]
  | c :: rest, acc =>
    if isWs c then acc.reverse :: wsSegments rest []
    else wsSegments rest (c :: acc)

/-- Modelled from the spec: header-value normalization (§4.1) — leading
and trailing whitespace trimmed and internal whitespace runs collapsed to
a single space. -/
def trimCollapse (s : String) : String :=
  String.intercalate " "
    (((wsSegments s.toList []).filter fun seg => seg ≠ []).map String.mk)

/-- Lower-case a string character by character. -/
def toLowerStr (s : String) : String :=
  String.mk (s.toList.map Char.toLower)

/-- Merge one normalized header occurrence into the accumulated list: a
duplicate name joins its value onto the existing one with a comma (§4.1's
duplicate-merge rule); a fresh name is appended. -/
def addHeader : List (String × String) → String → String →
    List (String × String)
  | [], n, v => [(n, v)]
  | (n0, v0) :: rest, n, v =>
    if n0 = n then (n0, v0 ++ "," ++ v) :: rest
    else (n0, v0) :: addHeader rest n v

/-- Modelled from the spec: `canonicalizeHeaders` (§4.1) — names
lower-cased, values trimmed and whitespace-collapsed, duplicates merged
comma-joined, entries sorted by name; yields the canonical header block
(each entry `name:value\n`) and the `;`-joined signed-header name list. -/
def canonicalizeHeaders (hs : List (String × String)) : String × String :=
  let normalized := hs.map fun p => (toLowerStr p.1, trimCollapse p.2)
  let merged := normalized.foldl (fun acc p => addHeader acc p.1 p.2) []
  let sorted := sortLe (fun p q => strLe p.1 q.1) merged
  (String.join (sorted.map fun p => p.1 ++ ":" ++ p.2 ++ "\n"),
    String.intercalate ";" (sorted.map Prod.fst))

/-- Modelled from the spec: the signing actions a request can carry (§3). -/
inductive SigningAction where
  | read
  | resumable
  | write
  | delete
  | list
  deriving DecidableEq, Repr

/-- Modelled from the spec: the HTTP verb a signing action stands for —
the inverse of the harness's verb → action tables. -/
def actionMethod : SigningAction → String
  | SigningAction.read => "GET"
  | SigningAction.resumable => "POST"
  | SigningAction.write => "PUT"
  | SigningAction.delete => "DELETE"
  | SigningAction.list => "GET"

/-- Modelled from the spec: one signing operation's full input
(`SigningRequest`, §3): action, resource, addressing style with its
optional bound hostname, scheme, expiration seconds, explicit reference
timestamp, extension headers and extra query parameters. -/
structure SigningRequest where
  action : SigningAction
  bucket : String
  object : Option String
  urlStyle : UrlStyle
  host : Option String
  scheme : String
  expiration : Nat
  timestamp : UTCTimestamp
  extensionHeaders : List (String × String)
  queryParams : List (String × String)

/-- Path contribution of an optional object, `/` when absent (bucket
operations resolve to the bucket root, §4.3). -/
def objectRootPath (object : Option String) : String :=
  match object with
  | some o => "/" ++ encodePath o
  | none => "/"

/-- Modelled from the spec: the Addressing Resolver (§4.3) —
`PATH_STYLE` uses the storage endpoint and a `/bucket[/object]` path,
`VIRTUAL_HOSTED_STYLE` prepends the bucket to the endpoint,
`BUCKET_BOUND_HOSTNAME` uses the caller-supplied host exactly as given
and fails with `InvalidAddressingError` when no host was supplied. -/
def resolveAddress (bucket : String) (object : Option String)
    (style : UrlStyle) (host : Option String) :
    Except SigningError (String × String) :=
  match style with
  | UrlStyle.PATH_STYLE =>
      Except.ok (STORAGE_ENDPOINT,
        "/" ++ bucket ++ (match object with
          | some o => "/" ++ encodePath o
          | none => ""))
  | UrlStyle.VIRTUAL_HOSTED_STYLE =>
      Except.ok (bucket ++ "." ++ STORAGE_ENDPOINT, objectRootPath object)
  | UrlStyle.BUCKET_BOUND_HOSTNAME =>
      match host with
      | none => Except.error SigningError.invalidAddressing
      | some h => Except.ok (h, objectRootPath object)

/-- Addressing resolution of a whole request. -/
def resolveRequest (req : SigningRequest) : Except SigningError (String × String) :=
  resolveAddress req.bucket req.object req.urlStyle req.host

/-- Modelled from the spec: the reserved auth query-parameter names (§4.4
step 1 and §4.5) a caller-supplied parameter may not collide with. -/
def reservedParamNames : List String :=
  ["X-Goog-Algorithm", "X-Goog-Credential", "X-Goog-Date", "X-Goog-Expires",
    "X-Goog-SignedHeaders", "X-Goog-Signature"]

/-- Does a caller parameter list collide with a reserved auth name? -/
def hasParamCollision (caller : List (String × String)) : Bool :=
  caller.any fun p => reservedParamNames.contains p.1

/-- Modelled from the spec: the mandatory auth query parameters (§4.4
step 1) in their emission order. -/
def authQueryParams (cred : SigningCredential) (req : SigningRequest)
    (signedHeaders : String) : List (String × String) :=
  [("X-Goog-Algorithm", "GOOG4-HMAC-SHA256"),
    ("X-Goog-Credential", cred.clientEmail ++ "/" ++ buildScope req.timestamp),
    ("X-Goog-Date", fullStamp req.timestamp),
    ("X-Goog-Expires", toString req.expiration),
    ("X-Goog-SignedHeaders", signedHeaders)]

/-- Modelled from the spec: merging caller parameters into the auth set
(§4.4 step 1) — a name collision with a reserved auth parameter is a
`QueryParamCollisionError`; otherwise caller parameters follow the auth
parameters, never overwriting them. -/
def mergeQueryParams (auth caller : List (String × String)) :
    Except SigningError (List (String × String)) :=
  if hasParamCollision caller then Except.error SigningError.queryParamCollision
  else Except.ok (auth ++ caller)

/-- Modelled from the spec: the canonical query string (§4.4 step 2) —
every parameter canonically encoded, the set sorted by encoded key then
encoded value, entries joined `key=value` with `&`. -/
def canonicalQueryString (params : List (String × String)) : String :=
  String.intercalate "&"
    ((sortLe pairLe (params.map fun p =>
        (encodeQueryComponent p.1, encodeQueryComponent p.2))).map
      fun p => p.1 ++ "=" ++ p.2)

/-- Modelled from the spec: the canonical request (§4.4 step 5):
`METHOD\nPATH\nQUERY\nHEADERS\nSIGNED_HEADERS\nUNSIGNED-PAYLOAD`. -/
def canonicalRequestStr (method path query headerBlock signedHeaders : String) :
    String :=
  method ++ "\n" ++ path ++ "\n" ++ query ++ "\n" ++ headerBlock ++ "\n" ++
    signedHeaders ++ "\n" ++ "UNSIGNED-PAYLOAD"

/-- Modelled from the spec: the string-to-sign (§4.4 step 6). -/
def stringToSign (cp : CryptoPrimitives) (ts : UTCTimestamp)
    (canonicalRequest : String) : String :=
  "GOOG4-HMAC-SHA256" ++ "\n" ++ fullStamp ts ++ "\n" ++ buildScope ts ++
    "\n" ++ cp.sha256Hex canonicalRequest

/-- Modelled from the spec: the full URL-signing operation (§4.4–§4.5),
absent from this source tree.  Validates the expiration window before any
cryptographic work, resolves the address, merges caller query parameters
into the auth set (collisions are errors), builds the canonical request
and string-to-sign, signs with the derived key, and assembles
`scheme://host + path + "?" + query + "&X-Goog-Signature=" + signature`. -/
def getSignedUrl (cp : CryptoPrimitives) (cred : SigningCredential)
    (req : SigningRequest) : Except SigningError String :=
  if req.expiration = 0 ∨ 604800 < req.expiration then
    Except.error SigningError.expirationRange
  else
    match resolveRequest req with
    | Except.error e => Except.error e
    | Except.ok (host, path) =>
      let hc := canonicalizeHeaders (("host", host) :: req.extensionHeaders)
      match mergeQueryParams (authQueryParams cred req hc.2) req.queryParams with
      | Except.error e => Except.error e
      | Except.ok params =>
        let query := canonicalQueryString params
        let cr := canonicalRequestStr (actionMethod req.action) path query hc.1 hc.2
        let sig := cp.hmacHex (deriveSigningKey cp cred req.timestamp)
          (stringToSign cp req.timestamp cr)
        Except.ok (req.scheme ++ "://" ++ host ++ path ++ "?" ++ query ++
          "&X-Goog-Signature=" ++ sig)

/-- Modelled from the spec: one *run* of the signing operation (§5).  A
run happens in an environment with an ambient clock, but the engine's
timestamps are supplied explicitly in the request rather than sampled
internally, so the ambient clock never enters the computation. -/
def runSigning (cp : CryptoPrimitives) (_ambientNowMs : Nat)
    (cred : SigningCredential) (req : SigningRequest) :
    Except SigningError String :=
  getSignedUrl cp cred req

/-- Is an `Except` result a success? -/
def exceptOk {ε α : Type} : Except ε α → Bool
  | Except.ok _ => true
  | Except.error _ => false

/-! ### Concrete inputs

Concrete crypto primitives, credentials and requests used to instantiate
the theorems below on closed inputs. -/

/-- A concrete, trivially computable stand-in for the crypto primitives:
tags key and message.  The theorems below are parametric in the
primitives; this instance only serves to evaluate them on closed inputs. -/
def cp0 : CryptoPrimitives :=
  { hmacHex := fun k m => "hmac." ++ k ++ "." ++ m,
    sha256Hex := fun m => "sha." ++ m }

/-- A concrete signing credential. -/
def cred0 : SigningCredential :=
  { clientEmail := "test-iam-credentials@dummy-project-id.iam.gserviceaccount.com",
    privateKey := "dummy-private-key" }

/-- A concrete reference timestamp, 2020-01-02T03:04:56Z. -/
def ts0 : UTCTimestamp :=
  { year := 2020, month := 1, day := 2, hour := 3, minute := 4, second := 56 }

/-- A concrete well-formed path-style request with the given expiration. -/
def baseRequest (e : Nat) : SigningRequest :=
  { action := SigningAction.read,
    bucket := "test-bucket",
    object := some "test-object.txt",
    urlStyle := UrlStyle.PATH_STYLE,
    host := none,
    scheme := "https",
    expiration := e,
    timestamp := ts0,
    extensionHeaders := [],
    queryParams := [] }

/-- A concrete request asking for `BUCKET_BOUND_HOSTNAME` addressing
without supplying a host. -/
def hostlessBoundRequest : SigningRequest :=
  { baseRequest 600 with urlStyle := UrlStyle.BUCKET_BOUND_HOSTNAME, host := none }

/-- A concrete request whose caller query parameters include the reserved
name `X-Goog-Signature`. -/
def collidingRequest : SigningRequest :=
  { baseRequest 600 with queryParams := [("X-Goog-Signature", "deadbeef")] }

/-- A URL test case whose HTTP verb is not in any dispatch table. -/
def patchTestCase : V4SignedURLTestCase :=
  { description := "PATCH on an object",
    bucket := "test-bucket",
    object := some "test-object.txt",
    urlStyle := none,
    bucketBoundHostname := none,
    scheme := "https",
    headers := [],
    queryParameters := [],
    method := "PATCH",
    expiration := 600,
    timestamp := "2020-01-02T03:04:56Z",
    expectedUrl := "https://storage.googleapis.com/test-bucket/test-object.txt" }

/-- A URL test case carrying a bound hostname together with the
`BUCKET_BOUND_HOSTNAME` style. -/
def boundHostTestCase : V4SignedURLTestCase :=
  { patchTestCase with
    description := "bound hostname",
    method := "GET",
    urlStyle := some UrlStyle.BUCKET_BOUND_HOSTNAME,
    bucketBoundHostname := some "mydomain.tld",
    scheme := "http" }

/-- A URL test case carrying a bound hostname but requesting `PATH_STYLE`
addressing. -/
def pathStyleBoundHostTestCase : V4SignedURLTestCase :=
  { boundHostTestCase with
    description := "bound hostname ignored under path style",
    urlStyle := some UrlStyle.PATH_STYLE,
    scheme := "https" }

/-- A produced URL whose query is serialized `a` first. -/
def actualUrlAB : URLRecord :=
  { origin := "https://storage.googleapis.com",
    pathname := "/validation-bucket/test.txt",
    search := "?a=1&b=2" }

/-- An expected URL with the same origin, pathname and query mapping, but
serialized `b` first. -/
def expectedUrlBA : URLRecord :=
  { origin := "https://storage.googleapis.com",
    pathname := "/validation-bucket/test.txt",
    search := "?b=2&a=1" }

/-- A concrete policy input. -/
def policyInput0 : PolicyInput :=
  { scheme := "https",
    bucket := "test-bucket",
    object := "test-object.txt",
    expiration := 600,
    timestamp := "2020-01-02T03:04:56Z",
    conditions := none,
    fields := [] }

/-- A raw fixture entry with only an expected URL. -/
def rawUrlOnly : RawTestCase :=
  { description := "url case",
    expectedUrl := some "https://storage.googleapis.com/b/o",
    policyInput := none }

/-- A raw fixture entry with only a policy input. -/
def rawPolicyOnly : RawTestCase :=
  { description := "policy case",
    expectedUrl := none,
    policyInput := some policyInput0 }

/-- A raw fixture entry carrying both an expected URL and a policy input. -/
def rawBothCase : RawTestCase :=
  { description := "both",
    expectedUrl := some "https://storage.googleapis.com/b2/o2",
    policyInput := some policyInput0 }

/-- A raw fixture entry carrying neither an expected URL nor a policy
input. -/
def rawNeitherCase : RawTestCase :=
  { description := "neither",
    expectedUrl := none,
    policyInput := none }

/-- The four-entry fixture built from the raw entries above. -/
def rawFixture : List RawTestCase :=
  [rawUrlOnly, rawPolicyOnly, rawBothCase, rawNeitherCase]

/-! ### Helper lemmas -/

/-- A lookup that succeeds in the left part of an appended association
list is unaffected by the right part. -/
theorem lookup_append_left {α β : Type} [BEq α] (l1 l2 : List (α × β)) (n : α)
    (h : (l1.lookup n).isSome = true) : (l1 ++ l2).lookup n = l1.lookup n := by
  induction l1 with
  | nil => simp [List.lookup] at h
  | cons p rest ih =>
    obtain ⟨k, v⟩ := p
    by_cases hk : (n == k) = true
    · simp [List.lookup, hk]
    · have hk2 : (n == k) = false := by
        simpa using hk
      simp only [List.cons_append, List.lookup, hk2] at h ⊢
      exact ih h

/-- In an association list with pairwise-distinct keys, lookup of a member
pair's key yields its value. -/
theorem lookup_eq_of_mem_of_nodup {α β : Type} [BEq α] [LawfulBEq α]
    {l : List (α × β)} {n : α} {v : β}
    (hmem : (n, v) ∈ l) (hnd : (l.map Prod.fst).Nodup) :
    l.lookup n = some v := by
  induction l with
  | nil => cases hmem
  | cons p rest ih =>
    obtain ⟨k, w⟩ := p
    simp only [List.map_cons, List.nodup_cons] at hnd
    rcases List.mem_cons.mp hmem with heq | hm
    · cases heq
      simp [List.lookup]
    · have hkn : (n == k) = false := by
        by_contra hcon
        have hk : n = k := eq_of_beq (by simpa using hcon)
        subst hk
        exact hnd.1 (List.mem_map_of_mem Prod.fst hm)
      simp only [List.lookup, hkn]
      exact ih hm hnd.2

/-! ### The claims -/

/-- Claim C1, counterexample: the harness's dispatch is not rejecting —
for the concrete test case with an object and method `PATCH`, the lookup
produces `undefined` (`none`) and the harness still invokes the engine
with that undefined action instead of failing at the boundary. -/
theorem verbDispatch_counterexample :
    fileAction "PATCH" = none ∧
    testCaseAction patchTestCase = DispatchedAction.file none :=
  ⟨rfl, rfl⟩

/-- Claim C1, amended: the verb → action tables map `GET→read`,
`POST→resumable`, `PUT→write`, `DELETE→delete` for object cases and
`GET→list` for bucket cases; every other verb maps to `undefined`
(`none`), which the harness passes silently into the engine invocation —
object cases (truthy `object`) dispatch through the file table and bucket
cases through the bucket table, with no rejection branch. -/
theorem verbDispatch_amended :
    fileAction "GET" = some FileActionValue.read ∧
    fileAction "POST" = some FileActionValue.resumable ∧
    fileAction "PUT" = some FileActionValue.write ∧
    fileAction "DELETE" = some FileActionValue.delete ∧
    bucketAction "GET" = some BucketActionValue.list ∧
    (∀ m : String, m ≠ "GET" → m ≠ "POST" → m ≠ "PUT" → m ≠ "DELETE" →
      fileAction m = none) ∧
    (∀ m : String, m ≠ "GET" → bucketAction m = none) ∧
    (∀ tc : V4SignedURLTestCase, truthyStr tc.object ≠ none →
      testCaseAction tc = DispatchedAction.file (fileAction tc.method)) ∧
    (∀ tc : V4SignedURLTestCase, truthyStr tc.object = none →
      testCaseAction tc = DispatchedAction.bucket (bucketAction tc.method)) := by
  refine ⟨rfl, rfl, rfl, rfl, rfl, ?_, ?_, ?_, ?_⟩
  · intro m h1 h2 h3 h4
    simp [fileAction, h1, h2, h3, h4]
  · intro m h1
    simp [bucketAction, h1]
  · intro tc h
    unfold testCaseAction
    cases htc : truthyStr tc.object with
    | none => exact absurd htc h
    | some o => rfl
  · intro tc h
    unfold testCaseAction
    rw [h]

/-- Claim C1, witness: the amended dispatch evaluated at concrete verbs
and at the concrete `PATCH` test case. -/
theorem verbDispatch_amended_witness :
    fileAction "PATCH" = none ∧
    bucketAction "PUT" = none ∧
    testCaseAction patchTestCase = DispatchedAction.file (fileAction "PATCH") := by
  refine ⟨?_, ?_, ?_⟩
  · exact verbDispatch_amended.2.2.2.2.2.1 "PATCH"
      (by decide) (by decide) (by decide) (by decide)
  · exact verbDispatch_amended.2.2.2.2.2.2.1 "PUT" (by decide)
  · exact verbDispatch_amended.2.2.2.2.2.2.2.1 patchTestCase (by decide)

/-- Claim C5: `parseUrlStyle` never yields a result that is simultaneously
bound-hostname (a present `cname`) and virtual-hosted (`virtualHostedStyle`
`true`), and every style other than `BUCKET_BOUND_HOSTNAME` and
`VIRTUAL_HOSTED_STYLE` — including an absent style — resolves to
path-style: no `cname` and `virtualHostedStyle` `false`. -/
theorem parseUrlStyle_exclusive (style : Option UrlStyle) (domain : Option String) :
    (¬((parseUrlStyle style domain).cname.isSome = true ∧
      (parseUrlStyle style domain).virtualHostedStyle = some true)) ∧
    (style ≠ some UrlStyle.BUCKET_BOUND_HOSTNAME →
      style ≠ some UrlStyle.VIRTUAL_HOSTED_STYLE →
      parseUrlStyle style domain =
        { cname := none, virtualHostedStyle := some false }) := by
  constructor
  · rintro ⟨h1, h2⟩
    cases style with
    | none => simp [parseUrlStyle] at h2
    | some s => cases s <;> simp [parseUrlStyle] at h1 h2
  · intro h1 h2
    cases style with
    | none => rfl
    | some s =>
      cases s with
      | PATH_STYLE => rfl
      | VIRTUAL_HOSTED_STYLE => exact absurd rfl h2
      | BUCKET_BOUND_HOSTNAME => exact absurd rfl h1

/-- Claim C5, witness: the style-resolution invariant evaluated at the
concrete inputs `PATH_STYLE` (with a domain supplied) and an absent
style. -/
theorem parseUrlStyle_exclusive_witness :
    parseUrlStyle (some UrlStyle.PATH_STYLE) (some "https://mydomain.tld") =
      { cname := none, virtualHostedStyle := some false } ∧
    parseUrlStyle none none =
      { cname := none, virtualHostedStyle := some false } := by
  constructor
  · exact (parseUrlStyle_exclusive (some UrlStyle.PATH_STYLE)
      (some "https://mydomain.tld")).2 (by decide) (by decide)
  · exact (parseUrlStyle_exclusive none none).2 (by decide) (by decide)

/-- The `cname` component of `parseUrlStyle`: the supplied domain under
`BUCKET_BOUND_HOSTNAME`, `none` under every other style. -/
theorem parseUrlStyle_cname (style : Option UrlStyle) (domain : Option String) :
    (parseUrlStyle style domain).cname =
      if style = some UrlStyle.BUCKET_BOUND_HOSTNAME then domain else none := by
  cases style with
  | none => rfl
  | some s => cases s <;> rfl

/-- Claim C6, counterexample: a test case whose `bucketBoundHostname` is
present and truthy but whose `urlStyle` is `PATH_STYLE` — the harness
passes *no* `cname` to the engine, not the scheme-qualified domain the
claim requires for every test case with a `bucketBoundHostname`. -/
theorem testCname_counterexample :
    truthyStr pathStyleBoundHostTestCase.bucketBoundHostname = some "mydomain.tld" ∧
    pathStyleBoundHostTestCase.scheme = "https" ∧
    testCname pathStyleBoundHostTestCase = none ∧
    testCname pathStyleBoundHostTestCase ≠ some "https://mydomain.tld" :=
  ⟨rfl, rfl, rfl, by decide⟩

/-- Claim C6, amended: the harness passes
`cname = scheme + "://" + bucketBoundHostname` exactly when the test case
both selects `BUCKET_BOUND_HOSTNAME` style and carries a truthy
`bucketBoundHostname`; with no truthy `bucketBoundHostname`, or with any
other (or absent) style, no `cname` is supplied. -/
theorem testCname_amended (tc : V4SignedURLTestCase) :
    (∀ h : String, tc.urlStyle = some UrlStyle.BUCKET_BOUND_HOSTNAME →
      truthyStr tc.bucketBoundHostname = some h →
      testCname tc = some (tc.scheme ++ "://" ++ h)) ∧
    (truthyStr tc.bucketBoundHostname = none → testCname tc = none) ∧
    (tc.urlStyle ≠ some UrlStyle.BUCKET_BOUND_HOSTNAME → testCname tc = none) := by
  refine ⟨?_, ?_, ?_⟩
  · intro h hstyle htr
    unfold testCname testDomain
    rw [parseUrlStyle_cname, if_pos hstyle, htr]
  · intro htr
    unfold testCname testDomain
    rw [parseUrlStyle_cname, htr]
    by_cases hs : tc.urlStyle = some UrlStyle.BUCKET_BOUND_HOSTNAME
    · rw [if_pos hs]
    · rw [if_neg hs]
  · intro hstyle
    unfold testCname testDomain
    rw [parseUrlStyle_cname, if_neg hstyle]

/-- Claim C6, witness: the amended `cname` rule evaluated at the concrete
bound-hostname test case and at the concrete case without a hostname. -/
theorem testCname_amended_witness :
    testCname boundHostTestCase =
      some (boundHostTestCase.scheme ++ "://" ++ "mydomain.tld") ∧
    testCname patchTestCase = none := by
  constructor
  · exact (testCname_amended boundHostTestCase).1 "mydomain.tld" rfl rfl
  · exact (testCname_amended patchTestCase).2.1 rfl

/-- The partition loop equals the two guard filters: entries with a truthy
`expectedUrl` become URL cases, remaining entries with a `policyInput`
become policy cases. -/
theorem partitionCases_eq (cases : List RawTestCase) :
    partitionCases cases = (cases.filter isUrlCase, cases.filter isPolicyCase) := by
  induction cases with
  | nil => rfl
  | cons tc rest ih =>
    by_cases h1 : isTruthyStr tc.expectedUrl = true
    · simp [partitionCases, ih, List.filter_cons, isUrlCase, isPolicyCase, h1]
    · have h1f : isTruthyStr tc.expectedUrl = false := by simpa using h1
      by_cases h2 : tc.policyInput.isSome = true
      · simp [partitionCases, ih, List.filter_cons, isUrlCase, isPolicyCase, h1f, h2]
      · have h2f : tc.policyInput.isSome = false := by simpa using h2
        simp [partitionCases, ih, List.filter_cons, isUrlCase, isPolicyCase, h1f, h2f]

/-- Claim C10: the fixture partition sends every entry with a truthy
`expectedUrl` to the URL list and every remaining entry with a
`policyInput` to the policy list — so an entry carrying both lands only in
the URL list, an entry carrying neither lands in no list, and no entry is
ever in both lists. -/
theorem fixturePartition (cases : List RawTestCase) :
    partitionCases cases = (cases.filter isUrlCase, cases.filter isPolicyCase) ∧
    ∀ tc : RawTestCase,
      ¬(tc ∈ (partitionCases cases).1 ∧ tc ∈ (partitionCases cases).2) := by
  refine ⟨partitionCases_eq cases, ?_⟩
  rintro tc ⟨h1, h2⟩
  rw [partitionCases_eq] at h1 h2
  have hu := (List.mem_filter.mp h1).2
  have hp := (List.mem_filter.mp h2).2
  simp only [isUrlCase, isPolicyCase, Bool.and_eq_true, Bool.not_eq_true'] at hu hp
  rw [hu] at hp
  exact Bool.false_ne_true hp.1.symm

/-- Claim C10, witness: the partition evaluated on the concrete four-entry
fixture — URL-only and both-carrying entries in the URL list, the
policy-only entry in the policy list, the empty entry dropped — and
disjointness applied to the both-carrying entry. -/
theorem fixturePartition_witness :
    partitionCases rawFixture = ([rawUrlOnly, rawBothCase], [rawPolicyOnly]) ∧
    ¬(rawBothCase ∈ (partitionCases rawFixture).1 ∧
      rawBothCase ∈ (partitionCases rawFixture).2) :=
  ⟨rfl, (fixturePartition rawFixture).2 rawBothCase⟩

/-- Claim C9: the policy suite is registered with `describe.skip` and its
test body is entirely commented out, so for every list of policy cases the
suite run executes no assertion at all, and each individual body is
empty — the §4.6 field-vs-condition stripping rules are unexercised. -/
theorem policySuiteSkipped (cases : List V4SignedPolicyTestCase) :
    v4SignedPolicySuite.skipped = true ∧
    runSuite v4SignedPolicySuite cases = [] ∧
    ∀ tc : V4SignedPolicyTestCase, v4SignedPolicySuite.body tc = [] :=
  ⟨rfl, rfl, fun _ => rfl⟩

/-- Claim C3, divergence: the harness's URL judgement is *not* the
order-insensitive mapping comparison it is documented to be.  On two URLs
with identical origin, identical pathname and identical query mappings —
differing only in which parameter is serialized first — the
specification's criterion accepts, but the harness check rejects, because
`querystring.parse` is fed `URL#search` with its leading `?`, which stays
glued to the first parameter's key (`"?a"` vs `"?b"`). -/
theorem urlConformance_divergence :
    actualUrlAB.origin = expectedUrlBA.origin ∧
    actualUrlAB.pathname = expectedUrlBA.pathname ∧
    qsParse actualUrlAB.search = [("?a", ["1"]), ("b", ["2"])] ∧
    qsParse expectedUrlBA.search = [("?b", ["2"]), ("a", ["1"])] ∧
    specUrlConformance actualUrlAB expectedUrlBA = true ∧
    urlConformance actualUrlAB expectedUrlBA = false :=
  ⟨rfl, rfl, rfl, rfl, rfl, rfl⟩

/-- Claim C7: signing is deterministic — the outcome of a signing run is
a function of the crypto primitives, credential and request (which carries
its explicit timestamp) alone; the ambient clock of the run never enters,
so two runs over the same fixed inputs yield byte-identical output. -/
theorem signingDeterministic (cp : CryptoPrimitives) (cred : SigningCredential)
    (req : SigningRequest) (w1 w2 : Nat) :
    runSigning cp w1 cred req = runSigning cp w2 cred req := rfl

/-- Claim C2: an expiration of `0` or above `604800` (in particular
`604801`) fails with `ExpirationRangeError`, with an outcome independent
of the crypto primitives and the credential — no cryptographic work is
reached; an expiration of `1` or `604800` succeeds whenever the rest of
the request is well-formed (its addressing resolves and its caller query
parameters do not collide). -/
theorem expirationBoundary (cp : CryptoPrimitives) (cred : SigningCredential)
    (req : SigningRequest) :
    (req.expiration = 0 ∨ 604800 < req.expiration →
      getSignedUrl cp cred req = Except.error SigningError.expirationRange ∧
      ∀ cp2 : CryptoPrimitives, ∀ cred2 : SigningCredential,
        getSignedUrl cp cred req = getSignedUrl cp2 cred2 req) ∧
    (req.expiration = 1 ∨ req.expiration = 604800 →
      exceptOk (resolveRequest req) = true →
      hasParamCollision req.queryParams = false →
      exceptOk (getSignedUrl cp cred req) = true) := by
  constructor
  · intro h
    constructor
    · simp [getSignedUrl, h]
    · intro cp2 cred2
      simp [getSignedUrl, h]
  · intro he hres hcol
    have hcond : ¬(req.expiration = 0 ∨ 604800 < req.expiration) := by
      rcases he with h1 | h1 <;> omega
    simp only [getSignedUrl, if_neg hcond]
    cases hr : resolveRequest req with
    | error e =>
      rw [hr] at hres
      simp [exceptOk] at hres
    | ok hp =>
      obtain ⟨host, path⟩ := hp
      simp [mergeQueryParams, hcol, exceptOk]

/-- Claim C2, witness: the expiration boundary evaluated at the four
concrete expirations `0`, `604801`, `1` and `604800` on an otherwise
well-formed concrete request. -/
theorem expirationBoundary_witness :
    getSignedUrl cp0 cred0 (baseRequest 0) =
      Except.error SigningError.expirationRange ∧
    getSignedUrl cp0 cred0 (baseRequest 604801) =
      Except.error SigningError.expirationRange ∧
    exceptOk (getSignedUrl cp0 cred0 (baseRequest 1)) = true ∧
    exceptOk (getSignedUrl cp0 cred0 (baseRequest 604800)) = true := by
  refine ⟨?_, ?_, ?_, ?_⟩
  · exact ((expirationBoundary cp0 cred0 (baseRequest 0)).1 (Or.inl rfl)).1
  · exact ((expirationBoundary cp0 cred0 (baseRequest 604801)).1
      (Or.inr (by decide))).1
  · exact (expirationBoundary cp0 cred0 (baseRequest 1)).2
      (Or.inl rfl) (by decide) rfl
  · exact (expirationBoundary cp0 cred0 (baseRequest 604800)).2
      (Or.inr rfl) (by decide) rfl

/-- Claim C4: requesting `BUCKET_BOUND_HOSTNAME` addressing without a host
makes resolution fail with `InvalidAddressingError`, and the signing
operation as a whole (once past the expiration validation that precedes
it) fails with that error rather than proceeding with an absent
hostname. -/
theorem boundHostnameRequiresHost (cp : CryptoPrimitives)
    (cred : SigningCredential) (req : SigningRequest)
    (hstyle : req.urlStyle = UrlStyle.BUCKET_BOUND_HOSTNAME)
    (hhost : req.host = none) :
    resolveRequest req = Except.error SigningError.invalidAddressing ∧
    (¬(req.expiration = 0 ∨ 604800 < req.expiration) →
      getSignedUrl cp cred req = Except.error SigningError.invalidAddressing) := by
  have hres : resolveRequest req = Except.error SigningError.invalidAddressing := by
    simp [resolveRequest, resolveAddress, hstyle, hhost]
  refine ⟨hres, ?_⟩
  intro hexp
  simp [getSignedUrl, if_neg hexp, hres]

/-- Claim C4, witness: the hostless bound-hostname failure evaluated at
the concrete request. -/
theorem boundHostnameRequiresHost_witness :
    getSignedUrl cp0 cred0 hostlessBoundRequest =
      Except.error SigningError.invalidAddressing :=
  (boundHostnameRequiresHost cp0 cred0 hostlessBoundRequest rfl rfl).2 (by decide)

/-- Claim C8: a caller query parameter named `X-Goog-Signature` (a
reserved auth name) makes the signing operation fail with
`QueryParamCollisionError` (once past the expiration and addressing
checks that precede the merge); and whenever the merge succeeds, every
auth parameter keeps its value in the merged set — caller parameters
never overwrite auth parameters. -/
theorem queryParamCollisionRejected (cp : CryptoPrimitives)
    (cred : SigningCredential) (req : SigningRequest) :
    (("X-Goog-Signature" ∈ req.queryParams.map Prod.fst) →
      ¬(req.expiration = 0 ∨ 604800 < req.expiration) →
      exceptOk (resolveRequest req) = true →
      getSignedUrl cp cred req = Except.error SigningError.queryParamCollision) ∧
    (∀ signedHeaders caller merged,
      mergeQueryParams (authQueryParams cred req signedHeaders) caller =
        Except.ok merged →
      ∀ n v, (n, v) ∈ authQueryParams cred req signedHeaders →
        merged.lookup n = some v) := by
  constructor
  · intro hmem hexp hres
    have hcol : hasParamCollision req.queryParams = true := by
      simp only [hasParamCollision, List.any_eq_true]
      rcases List.mem_map.mp hmem with ⟨p, hp, hfst⟩
      refine ⟨p, hp, ?_⟩
      rw [hfst]
      decide
    simp only [getSignedUrl, if_neg hexp]
    cases hr : resolveRequest req with
    | error e =>
      rw [hr] at hres
      simp [exceptOk] at hres
    | ok hp =>
      obtain ⟨host, path⟩ := hp
      simp [mergeQueryParams, hcol]
  · intro sh caller merged hmerge n v hmem
    have hok : merged = authQueryParams cred req sh ++ caller := by
      by_cases hcol : hasParamCollision caller = true
      · simp [mergeQueryParams, hcol] at hmerge
      · have hcolf : hasParamCollision caller = false := by simpa using hcol
        simp only [mergeQueryParams, hcolf, Bool.false_eq_true, if_false,
          Except.ok.injEq] at hmerge
        exact hmerge.symm
    have hnd : ((authQueryParams cred req sh).map Prod.fst).Nodup := by
      simp only [authQueryParams, List.map_cons, List.map_nil]
      decide
    have hl1 : (authQueryParams cred req sh).lookup n = some v :=
      lookup_eq_of_mem_of_nodup hmem hnd
    rw [hok, lookup_append_left _ _ _ (by rw [hl1]; rfl)]
    exact hl1

/-- Claim C8, witness: the collision rejection evaluated at the concrete
request carrying `X-Goog-Signature`, and value preservation evaluated for
the concrete auth parameter `X-Goog-Expires` merged with a concrete
caller parameter. -/
theorem queryParamCollisionRejected_witness :
    getSignedUrl cp0 cred0 collidingRequest =
      Except.error SigningError.queryParamCollision ∧
    (authQueryParams cred0 (baseRequest 600) "host" ++
        [("userProject", "my-project")]).lookup "X-Goog-Expires" = some "600" := by
  constructor
  · exact (queryParamCollisionRejected cp0 cred0 collidingRequest).1
      (by decide) (by decide) (by decide)
  · exact (queryParamCollisionRejected cp0 cred0 (baseRequest 600)).2
      "host" [("userProject", "my-project")]
      (authQueryParams cred0 (baseRequest 600) "host" ++
        [("userProject", "my-project")])
      rfl "X-Goog-Expires" "600" (by decide)

end V4Conformance
